import Mathlib

/-!
Shallow embedding of `unified-browser-platform/python-agent/browser_use_agent.py`.

Python values that can be `None` are modelled with `Option`; Python truthiness
of optional strings (`if x:` where `x : str | None`) is `pyTruthyOpt`.
Exceptions are modelled with `Except String`; a Python `try/except` block is a
`match` on the `Except` value of the embedded body.  Machine behaviour that the
script delegates to collaborators (the browser-use `Agent`, HTTP responses) is
supplied by explicit "world" records so that the script's own control flow is
the only thing being verified.
-/

/-- `str.strip()`: drop leading and trailing whitespace.  (Defined over the
character list so that it evaluates inside the kernel.) -/
def pyStrip (s : String) : String :=
  ⟨(((s.data.dropWhile Char.isWhitespace).reverse.dropWhile
      Char.isWhitespace).reverse)⟩

/-- Worker for `str.replace`: non-overlapping left-to-right replacement.  The
fuel starts at the string length and each step consumes at least one
character, so it never runs out. -/
def replaceList : Nat → List Char → List Char → List Char → List Char
  | _, [], _, _ => []
  | 0, s, _, _ => s
  | fuel + 1, c :: rest, pat, rep =>
    if pat.isPrefixOf (c :: rest) && !pat.isEmpty then
      rep ++ replaceList fuel ((c :: rest).drop pat.length) pat rep
    else c :: replaceList fuel rest pat rep

/-- `str.replace(pat, rep)`: replaces every occurrence. -/
def pyReplace (s pat rep : String) : String :=
  ⟨replaceList s.data.length s.data pat.data rep.data⟩

/-- Worker for `str.split(pat)`. -/
def splitOnList : Nat → List Char → List Char → List Char → List (List Char)
  | _, [], acc, _ => [acc.reverse]
  | 0, s, acc, _ => [acc.reverse ++ s]
  | fuel + 1, c :: rest, acc, pat =>
    if pat.isPrefixOf (c :: rest) && !pat.isEmpty then
      acc.reverse :: splitOnList fuel ((c :: rest).drop pat.length) [] pat
    else splitOnList fuel rest (c :: acc) pat

/-- `str.split(pat)` with an explicit separator (keeps empty parts, the
Python behaviour). -/
def pySplitOn (s pat : String) : List String :=
  (splitOnList s.data.length s.data [] pat.data).map (fun l => ⟨l⟩)

/-- `s.startswith(pat)`. -/
def pyStartsWith (s pat : String) : Bool := pat.data.isPrefixOf s.data

/-- `s.lower()`. -/
def pyToLower (s : String) : String := ⟨s.data.map Char.toLower⟩

/-- Digit-string parsing (the core of Python `int`). -/
def pyToNatOpt (s : String) : Option Nat :=
  if s.data.isEmpty then none
  else if s.data.all (fun c => c.isDigit) then
    some (s.data.foldl (fun acc c => acc * 10 + (c.toNat - 48)) 0)
  else none

/-- `s[n:]` on the character level. -/
def pyDrop (s : String) (n : Nat) : String := ⟨s.data.drop n⟩

/-- Python truthiness of a `str | None` value: `None` and `""` are falsy. -/
def pyTruthyOpt : Option String → Bool
  | none => false
  | some s => s != ""

/-- Python `int(s)`: strips whitespace, allows one sign, then digits; raises
(here: `none`) on anything else. -/
def pyInt (s : String) : Option Int :=
  let t := pyStrip s
  if pyStartsWith t "-" then (pyToNatOpt (pyDrop t 1)).map (fun n => -(n : Int))
  else if pyStartsWith t "+" then (pyToNatOpt (pyDrop t 1)).map (fun n => (n : Int))
  else (pyToNatOpt t).map (fun n => (n : Int))

/-- Python `pat in s` substring test. -/
def containsSubstr (s pat : String) : Bool :=
  (pySplitOn s pat).length != 1

/-- `_sanitize_token`: replace non-breaking spaces with plain spaces and strip. -/
def sanitizeToken (t : String) : String :=
  pyStrip (pyReplace t "\xa0" " ")

/-- `[p for p in s.split(' ') if p]`: split on single spaces, drop empties. -/
def splitWords (s : String) : List String :=
  (pySplitOn s " ").filter (fun p => p != "")

/-- Raw process environment: each recognized variable is present or absent. -/
structure RawEnv where
  AZURE_OPENAI_API_KEY : Option String
  AZURE_OPENAI_ENDPOINT : Option String
  AZURE_OPENAI_DEPLOYMENT_NAME : Option String
  AZURE_OPENAI_API_VERSION : Option String
  OPENAI_API_KEY : Option String
  GOOGLE_API_KEY : Option String
  LLM_PROVIDER : Option String
  BROWSER_HEADLESS : Option String
  BROWSER_PORT : Option String
deriving DecidableEq

/-- Fields of the agent object after `load_environment` applied the
`os.getenv` defaults. -/
structure LoadedEnv where
  azure_api_key : Option String
  azure_endpoint : Option String
  azure_deployment : String
  api_version : String
  openai_api_key : Option String
  google_api_key : Option String
  llm_provider : String
  headless : Bool
  browser_port : Int
deriving DecidableEq

/-- `load_environment`: reads the environment with defaults.  `int()` on
`BROWSER_PORT` can raise, which is the only failure of this method. -/
def load_environment (e : RawEnv) : Except String LoadedEnv :=
  match pyInt (e.BROWSER_PORT.getD "9222") with
  | none => .error "invalid literal for int() with base 10"
  | some port =>
    .ok {
      azure_api_key := e.AZURE_OPENAI_API_KEY
      azure_endpoint := e.AZURE_OPENAI_ENDPOINT
      azure_deployment := e.AZURE_OPENAI_DEPLOYMENT_NAME.getD "gpt-4.1"
      api_version := e.AZURE_OPENAI_API_VERSION.getD "2024-08-01-preview"
      openai_api_key := e.OPENAI_API_KEY
      google_api_key := e.GOOGLE_API_KEY
      llm_provider := pyToLower (e.LLM_PROVIDER.getD "azure")
      headless := pyToLower (e.BROWSER_HEADLESS.getD "true") == "true"
      browser_port := port }

/-- The LLM object `setup_llm` selects. -/
inductive Provider where
  | azureOpenAI (model api_key azure_endpoint azure_deployment api_version : String)
  | openAI (model api_key : String)
  | google (model api_key : String)
deriving DecidableEq

/-- `all([azure_api_key, azure_endpoint, azure_deployment])`. -/
def azureAll (a : LoadedEnv) : Bool :=
  pyTruthyOpt a.azure_api_key && pyTruthyOpt a.azure_endpoint &&
    (a.azure_deployment != "")

/-- `setup_llm`: provider selection from preference and credentials; raises
`ValueError` (here `.error`) when nothing is configured. -/
def setup_llm (a : LoadedEnv) : Except String Provider :=
  if a.llm_provider == "azure" && azureAll a then
    .ok (.azureOpenAI a.azure_deployment (a.azure_api_key.getD "")
      (a.azure_endpoint.getD "") a.azure_deployment a.api_version)
  else if a.llm_provider == "openai" && pyTruthyOpt a.openai_api_key then
    .ok (.openAI "gpt-4o" (a.openai_api_key.getD ""))
  else if a.llm_provider == "google" && pyTruthyOpt a.google_api_key then
    .ok (.google "gemini-2.0-flash" (a.google_api_key.getD ""))
  else if azureAll a then
    .ok (.azureOpenAI a.azure_deployment (a.azure_api_key.getD "")
      (a.azure_endpoint.getD "") a.azure_deployment a.api_version)
  else
    .error "No valid LLM configuration found. Please set up Azure OpenAI, OpenAI, or Google AI credentials."

/-- State of a constructed `UnifiedBrowserUseAgent`. -/
structure UAState where
  loaded : LoadedEnv
  llm : Option Provider
  setup_called : Bool
  disable_highlighting : Bool
deriving DecidableEq

/-- `UnifiedBrowserUseAgent.__init__`: loads the environment and, unless
`defer_llm` is set, resolves the LLM provider (which may raise). -/
def initUA (env : RawEnv) (defer_llm disable_highlighting : Bool) :
    Except String UAState :=
  match load_environment env with
  | .error e => .error e
  | .ok a =>
    if defer_llm then
      .ok { loaded := a, llm := none, setup_called := false,
            disable_highlighting := disable_highlighting }
    else
      match setup_llm a with
      | .ok p => .ok { loaded := a, llm := some p, setup_called := true,
                       disable_highlighting := disable_highlighting }
      | .error e => .error e

/-- External failure modes available to `create_agent`: whether constructing a
`BrowserSession` attached to a given CDP url raises, and whether constructing
or initializing the `Agent` raises given the chosen browser session (`some url`
when attached to an existing browser, `none` for a fresh local one). -/
structure CreateWorld where
  attachFails : String → Bool
  buildFails : Option String → Bool

/-- `browser_context_id and browser_context_id.startswith('ws://')`. -/
def isWsHint : Option String → Bool
  | none => false
  | some u => u != "" && pyStartsWith u "ws://"

/-- One pass through the `try` body of `create_agent`: returns whether a
remote attach was attempted, and either the chosen browser session or the
exception message. -/
def tryCreate (w : CreateWorld) (hint : Option String) :
    Bool × Except String (Option String) :=
  if isWsHint hint then
    let u := hint.getD ""
    if w.attachFails u then (true, .error "attach failed")
    else if w.buildFails (some u) then (true, .error "agent build failed")
    else (true, .ok (some u))
  else
    if w.buildFails none then (false, .error "agent build failed")
    else (false, .ok none)

/-- `create_agent` with a recursion-depth bound.  The Python function recurses
by calling itself with the hint replaced by `""`; a `""` hint is falsy, so the
recursion depth never exceeds two — the bound is only there to make the
recursion structural.  The first component records, per attempt, the hint used
and whether a remote attach was attempted. -/
def create_agent_rec (w : CreateWorld) :
    Nat → Option String → List (Option String × Bool) × Except String (Option String)
  | 0, _ => ([], .error "recursion depth exceeded")
  | fuel + 1, hint =>
    let a := tryCreate w hint
    match a.2 with
    | .ok s => ([(hint, a.1)], .ok s)
    | .error e =>
      if pyTruthyOpt hint then
        let r := create_agent_rec w fuel (some "")
        ((hint, a.1) :: r.1, r.2)
      else ([(hint, a.1)], .error e)

/-- `create_agent` as called by `execute_task`. -/
def create_agent (w : CreateWorld) (hint : Option String) :
    List (Option String × Bool) × Except String (Option String) :=
  create_agent_rec w 2 hint

/-- One entry of `token_cost_service.usage_history`. -/
structure UsageEntry where
  prompt : Nat
  completion : Nat
deriving DecidableEq

/-- `0.0001` per prompt token (taken as an exact rational). -/
def prompt_rate : ℚ := 1 / 10000

/-- `0.0003` per completion token (taken as an exact rational). -/
def completion_rate : ℚ := 3 / 10000

/-- The token-usage delta computation of `execute_task`: `initial_usage` is
captured only when the pre-run history is non-empty (Python truthiness of the
list), and totals are summed over `usage_history[initial_usage:]` only when
`initial_usage is not None` and the history grew. -/
def usage_delta (has_service : Bool) (before appended : List UsageEntry) :
    Nat × ℚ :=
  let initial_usage : Option Nat :=
    if has_service && !before.isEmpty then some before.length else none
  let history := before ++ appended
  if has_service && !history.isEmpty then
    match initial_usage with
    | some i =>
      if history.length > i then
        let new_entries := history.drop i
        (new_entries.foldl (fun acc e => acc + e.prompt + e.completion) 0,
         new_entries.foldl
           (fun acc e => acc + (e.prompt : ℚ) * prompt_rate +
             (e.completion : ℚ) * completion_rate) 0)
      else (0, 0)
    | none => (0, 0)
  else (0, 0)

/-- Modelled from the spec (§4.3 `finalize()`): total tokens and cost summed
over exactly the records appended since the run's baseline.  Used only to
compare the source's `usage_delta` against the spec's formula. -/
def spec_usage_delta (appended : List UsageEntry) : Nat × ℚ :=
  (appended.foldl (fun acc e => acc + e.prompt + e.completion) 0,
   appended.foldl
     (fun acc e => acc + (e.prompt : ℚ) * prompt_rate +
       (e.completion : ℚ) * completion_rate) 0)

/-- JSON values, as produced by the script's result dictionaries. -/
inductive JVal where
  | null
  | b (v : Bool)
  | s (v : String)
  | n (v : Int)
  | q (v : ℚ)
  | obj (fields : List (String × JVal))

/-- Dictionary lookup on a JSON object (`dict.get`). -/
def lookupField (k : String) : List (String × JVal) → Option JVal
  | [] => none
  | (k2, v) :: rest => if k2 == k then some v else lookupField k rest

/-- `d.get(k)` on a JSON value; `none` when absent or not an object. -/
def jGet (k : String) : JVal → Option JVal
  | .obj fields => lookupField k fields
  | _ => none

/-- Python truthiness of an optional JSON value (`if x:`). -/
def pyTruthyJ : Option JVal → Bool
  | none => false
  | some .null => false
  | some (.b v) => v
  | some (.s v) => v != ""
  | some (.n v) => v != 0
  | some (.q v) => v != 0
  | some (.obj fields) => !fields.isEmpty

/-- `None ↦ null`, `s ↦ "s"`. -/
def optS : Option String → JVal
  | none => .null
  | some s => .s s

/-- What `agent.run()` yields on success: the optional `all_results` length
and the `str(result)` rendering. -/
structure RunOut where
  all_results : Option Nat
  rendered : String
deriving DecidableEq

/-- Collaborator behaviour for one `execute_task` call. -/
structure ExecWorld where
  create : CreateWorld
  run_result : Except String RunOut
  has_service : Bool
  history_before : List UsageEntry
  appended : List UsageEntry

/-- The success dictionary `execution_data` built by `execute_task`. -/
def success_data (a : LoadedEnv) (task : String) (steps : Nat)
    (final : String) (bcid : Option String) (tok : Nat) (cost : ℚ) : JVal :=
  .obj [("success", .b true), ("task", .s task),
        ("llm_provider", .s a.llm_provider),
        ("deployment",
          if a.llm_provider == "azure" then .s a.azure_deployment else .s "N/A"),
        ("steps_executed", .n steps), ("final_result", .s final),
        ("browser_context_id", optS bcid),
        ("token_usage",
          .obj [("total_tokens", .n tok), ("total_cost", .q cost),
                ("model", .s a.llm_provider)])]

/-- The failure dictionary `error_data` built by `execute_task`. -/
def error_data (a : LoadedEnv) (task err : String) (bcid : Option String) : JVal :=
  .obj [("success", .b false), ("task", .s task), ("error", .s err),
        ("llm_provider", .s a.llm_provider),
        ("browser_context_id", optS bcid)]

/-- The `try` body of `execute_task`: create the agent, run it, compute the
usage delta, build the success dictionary; any step may raise. -/
def execute_task_body (a : LoadedEnv) (w : ExecWorld) (task : String)
    (bcid : Option String) : Except String JVal :=
  match (create_agent w.create bcid).2 with
  | .error e => .error e
  | .ok _ =>
    match w.run_result with
    | .error e => .error e
    | .ok out =>
      let d := usage_delta w.has_service w.history_before w.appended
      .ok (success_data a task (out.all_results.getD 0) out.rendered bcid d.1 d.2)

/-- `execute_task`: the body wrapped in `try/except Exception`, converting any
exception into the `error_data` dictionary instead of propagating. -/
def execute_task (a : LoadedEnv) (w : ExecWorld) (task : String)
    (bcid : Option String) : Except String JVal :=
  match execute_task_body a w task bcid with
  | .ok r => .ok r
  | .error e => .ok (error_data a task e bcid)

/-- HTTP collaborator behaviour for one API-mode run: each endpoint's response
is either a network failure or a status code with a JSON body.  The three
endpoints are called at fixed URLs; the status endpoint returns the same
response on every call of the run. -/
structure HttpWorld where
  createResp : Except String (Nat × JVal)
  execResp : Except String (Nat × JVal)
  statusResp : Except String (Nat × JVal)

/-- `create_session_via_api`: POST the session-creation endpoint; on HTTP 200
return `result.get('sessionId')`, otherwise (non-200 or exception) `None`. -/
def create_session_via_api (w : HttpWorld) : Option JVal :=
  match w.createResp with
  | .error _ => none
  | .ok (status, body) => if status == 200 then jGet "sessionId" body else none

/-- `execute_task_via_api`: POST the task-submission endpoint; on HTTP 200
return the whole response body, otherwise `None`. -/
def execute_task_via_api (w : HttpWorld) : Option JVal :=
  match w.execResp with
  | .error _ => none
  | .ok (status, body) => if status == 200 then some body else none

/-- `monitor_task_progress`: one GET against the status endpoint; on HTTP 200
return the payload as-is, otherwise `None`. -/
def monitor_task_progress (w : HttpWorld) : Option JVal :=
  match w.statusResp with
  | .error _ => none
  | .ok (status, body) => if status == 200 then some body else none

/-- Observable outcome of the API-mode block of `main`: how many times each
endpoint was called and the final `json.dumps(result)` payload, `none` when
the block returned early without printing a result object. -/
structure ApiTrace where
  createCalls : Nat
  execCalls : Nat
  statusCalls : Nat
  printedResult : Option JVal

/-- The `use_api` block of `main` (after agent construction): create a
session, submit the task, then — in two verbatim-duplicated blocks — extract
`taskId` and, when truthy, call `monitor_task_progress`, discarding its
payload except for logging; finally print the submission response. -/
def api_mode_flow (w : HttpWorld) : ApiTrace :=
  let session_id := create_session_via_api w
  if !pyTruthyJ session_id then
    { createCalls := 1, execCalls := 0, statusCalls := 0, printedResult := none }
  else
    match execute_task_via_api w with
    | none =>
      { createCalls := 1, execCalls := 1, statusCalls := 0, printedResult := none }
    | some body =>
      if !pyTruthyJ (some body) then
        { createCalls := 1, execCalls := 1, statusCalls := 0, printedResult := none }
      else
        let task_id1 := jGet "taskId" body
        let polls1 := if pyTruthyJ task_id1 then 1 else 0
        let task_id2 := jGet "taskId" body
        let polls2 := if pyTruthyJ task_id2 then 1 else 0
        { createCalls := 1, execCalls := 1, statusCalls := polls1 + polls2,
          printedResult := some body }

/-- Outcome of one whole `main` invocation in API mode. -/
structure ApiOutcome where
  exitCode : Nat
  trace : ApiTrace
  setup_called : Bool

/-- API-mode `main`: construct the agent with `defer_llm=True`, then run the
API block; every path inside the block returns normally (exceptions are caught
and logged), so the process exit status is 0 whenever construction succeeds. -/
def main_api (env : RawEnv) (w : HttpWorld) (dh : Bool) : ApiOutcome :=
  match initUA env true dh with
  | .error _ =>
    { exitCode := 1, trace := ⟨0, 0, 0, none⟩, setup_called := false }
  | .ok st =>
    { exitCode := 0, trace := api_mode_flow w, setup_called := st.setup_called }

/-- Outcome of one whole `main` invocation in local mode. -/
structure LocalOutcome where
  exitCode : Nat
  printed : Option JVal
  taskRan : Bool

/-- Local-mode `main`: construct the agent (outside any `try`, so a
`setup_llm` failure propagates and the interpreter exits non-zero), then run
`execute_task` inside `try/except`; the `except` branch prints an error object
and calls `sys.exit(1)`, the normal branch prints the result and exits 0. -/
def main_local (env : RawEnv) (w : ExecWorld) (task : String)
    (bcid : Option String) (dh : Bool) : LocalOutcome :=
  match initUA env false dh with
  | .error _ => { exitCode := 1, printed := none, taskRan := false }
  | .ok st =>
    match execute_task st.loaded w task bcid with
    | .ok r => { exitCode := 0, printed := some r, taskRan := true }
    | .error e =>
      { exitCode := 1,
        printed := some (.obj [("success", .b false), ("error", .s e),
                               ("task", .s task)]),
        taskRan := true }

/-- Result of argument parsing in `main`. -/
inductive ParseResult where
  | usage
  | noTask
  | intErr (w : String)
  | parsed (task : String) (max_steps : Int) (session_id : Option String)
      (browser_context_id : Option String) (use_api dh : Bool)
deriving DecidableEq

/-- The per-token flag handling of the cleaning loop: detect `--api` and
`--disable-highlighting` as substrings, strip them, and drop the token if the
remainder is empty. -/
def processToken (t : String) : Bool × Bool × Option String :=
  let hasApi := containsSubstr t "--api"
  let t1 := if hasApi then (t.replace "--api" "").trim else t
  if hasApi && (t1 == "") then (true, false, none)
  else
    let hasDh := containsSubstr t1 "--disable-highlighting"
    let t2 := if hasDh then (t1.replace "--disable-highlighting" "").trim else t1
    if hasDh && (t2 == "") then (hasApi, true, none)
    else (hasApi, hasDh, some t2)

/-- The cleaning loop over all sanitized tokens. -/
def cleanTokens (ts : List String) : Bool × Bool × List String :=
  ts.foldl
    (fun acc t =>
      let r := processToken t
      (acc.1 || r.1, acc.2.1 || r.2.1,
       acc.2.2 ++ (match r.2.2 with | none => [] | some t2 => [t2])))
    (false, false, [])

/-- Lines 499–502 of `main`: `task = args[0]`, `max_steps = int(args[1])`
(default 10, `int()` may raise), `session_id = args[2]`,
`browser_context_id = args[3]`. -/
def parseArgsList (use_api dh : Bool) (args : List String) : ParseResult :=
  match args with
  | [] => .noTask
  | task :: rest =>
    match rest with
    | [] => .parsed task 10 none none use_api dh
    | w1 :: rest2 =>
      match pyInt w1 with
      | none => .intErr w1
      | some n => .parsed task n rest2.head? (rest2.drop 1).head? use_api dh

/-- Argument handling of `main` over `sys.argv[1:]`: usage message when empty,
sanitization, flag stripping, the single-token double-space fallback split,
then positional extraction. -/
def parseMain (argv1 : List String) : ParseResult :=
  if argv1 = [] then .usage
  else
    match cleanTokens (argv1.map sanitizeToken) with
    | (use_api, dh, args) =>
      if args = [] then .noTask
      else
        match args with
        | [t] =>
          if containsSubstr t "  " then parseArgsList use_api dh (splitWords t)
          else parseArgsList use_api dh [t]
        | _ => parseArgsList use_api dh args

lemma ws_ne_empty {u : String} (h : pyStartsWith u "ws://" = true) :
    (u != "") = true := by
  rcases eq_or_ne u "" with rfl | hne
  · exact absurd h (by decide)
  · simp [hne]

lemma isWsHint_true {u : String} (h : pyStartsWith u "ws://" = true) :
    isWsHint (some u) = true := by
  simp [isWsHint, h, ws_ne_empty h]

lemma isWsHint_false {u : String} (h : pyStartsWith u "ws://" = false) :
    isWsHint (some u) = false := by
  simp [isWsHint, h]

lemma tryCreate_fst_ws (w : CreateWorld) {u : String}
    (h : pyStartsWith u "ws://" = true) : (tryCreate w (some u)).1 = true := by
  simp only [tryCreate, isWsHint_true h, if_true]
  split
  · rfl
  · split <;> rfl

lemma tryCreate_fst_nonws (w : CreateWorld) {hint : Option String}
    (h : isWsHint hint = false) : (tryCreate w hint).1 = false := by
  rw [tryCreate, if_neg (by simp [h])]
  split <;> rfl

lemma tryCreate_empty_fst (w : CreateWorld) :
    (tryCreate w (some "")).1 = false :=
  tryCreate_fst_nonws w (by simp [isWsHint])

/-- One unrolling of `create_agent`. -/
lemma create_agent_eq (w : CreateWorld) (hint : Option String) :
    create_agent w hint =
      (match (tryCreate w hint).2 with
       | .ok s => ([(hint, (tryCreate w hint).1)], .ok s)
       | .error e =>
         if pyTruthyOpt hint then
           ((hint, (tryCreate w hint).1) :: (create_agent_rec w 1 (some "")).1,
            (create_agent_rec w 1 (some "")).2)
         else ([(hint, (tryCreate w hint).1)], .error e)) := rfl

/-- The retry call (fuel 1, hint `""`) performs exactly one further local
attempt and passes its outcome through. -/
lemma create_agent_rec_one (w : CreateWorld) :
    (create_agent_rec w 1 (some "")).1 = [(some "", false)] ∧
    (create_agent_rec w 1 (some "")).2 = (tryCreate w (some "")).2 := by
  have hfst := tryCreate_empty_fst w
  rcases h : tryCreate w (some "") with ⟨att, res⟩
  have hatt : att = false := by rw [h] at hfst; exact hfst
  subst hatt
  cases res with
  | ok s => simp [create_agent_rec, h]
  | error e => simp [create_agent_rec, h, pyTruthyOpt]

/-- C1: for `create_agent` with a hint that is present and starts with
`ws://`, any exception in the remote-attached attempt causes exactly one
re-invocation with the hint cleared to `""` (a local browser); the second
attempt's outcome — failure included — is passed through unchanged with no
further retry; and a hint that is absent or does not start with `ws://` never
attempts a remote attach in any attempt. -/
theorem create_agent_ws_fallback (w : CreateWorld) :
    (∀ u e, pyStartsWith u "ws://" = true →
      (tryCreate w (some u)).2 = .error e →
      (create_agent w (some u)).1 = [(some u, true), (some "", false)] ∧
      (create_agent w (some u)).2 = (tryCreate w (some "")).2) ∧
    (∀ hint : Option String,
      (hint = none ∨ ∃ u, hint = some u ∧ pyStartsWith u "ws://" = false) →
      ∀ p ∈ (create_agent w hint).1, p.2 = false) := by
  obtain ⟨h1, h2⟩ := create_agent_rec_one w
  constructor
  · intro u e hws herr
    have htru : pyTruthyOpt (some u) = true := ws_ne_empty hws
    constructor
    · simp only [create_agent_eq, herr, htru, if_true, h1, tryCreate_fst_ws w hws]
    · simp only [create_agent_eq, herr, htru, if_true, h2]
  · intro hint hcase p hp
    have hnws : isWsHint hint = false := by
      rcases hcase with rfl | ⟨u, rfl, hu⟩
      · rfl
      · exact isWsHint_false hu
    have hfst : (tryCreate w hint).1 = false := tryCreate_fst_nonws w hnws
    cases hres : (tryCreate w hint).2 with
    | error s =>
      rw [create_agent_eq, hres] at hp
      simp only [hfst] at hp
      by_cases ht : pyTruthyOpt hint = true
      · rw [if_pos ht] at hp
        simp only [h1, List.mem_cons, List.not_mem_nil, or_false] at hp
        rcases hp with rfl | rfl <;> rfl
      · rw [if_neg ht] at hp
        simp only [List.mem_singleton] at hp
        subst hp
        rfl
    | ok s =>
      rw [create_agent_eq, hres] at hp
      simp only [hfst, List.mem_singleton] at hp
      subst hp
      rfl

/-- Concrete world for the C1 witness: attaching and building always raise. -/
def wC1 : CreateWorld := ⟨fun _ => true, fun _ => true⟩

/-- Witness for C1 at the hint `ws://x` in a world where both the remote
attach and the local retry raise: the trace shows one remote attempt followed
by one local attempt, and the retry's failure is what is returned. -/
theorem create_agent_ws_fallback_witness :
    ((create_agent wC1 (some "ws://x")).1 =
      [(some "ws://x", true), (some "", false)] ∧
     (create_agent wC1 (some "ws://x")).2 = (tryCreate wC1 (some "")).2) ∧
    (tryCreate wC1 (some "")).2 = .error "agent build failed" ∧
    (∀ p ∈ (create_agent wC1 (some "nothing")).1, p.2 = false) :=
  ⟨(create_agent_ws_fallback wC1).1 "ws://x" "attach failed" (by decide) rfl,
   rfl,
   (create_agent_ws_fallback wC1).2 (some "nothing")
     (Or.inr ⟨"nothing", rfl, by decide⟩)⟩

/-- Concrete world where nothing raises. -/
def wNoFail : CreateWorld := ⟨fun _ => false, fun _ => false⟩

/-- A loaded environment with complete Azure credentials. -/
def envLoaded0 : LoadedEnv :=
  ⟨some "k", some "ep", "gpt-4.1", "v1", none, none, "azure", true, 9222⟩

/-- Execution world for the C2 evaluation: a clean agent (empty usage history
at baseline) whose run appends one usage record of 10 prompt and 5 completion
tokens. -/
def wRunC2 : ExecWorld :=
  ⟨wNoFail, .ok ⟨some 3, "done"⟩, true, [], [⟨10, 5⟩]⟩

/-- C2 (code bug): when a run begins with an empty usage history — which is
the case for every run, since `execute_task` constructs a fresh agent —
`initial_usage` stays `None` and the reported totals are `(0, 0)` even though
records were appended, while the claimed formula sums the new records
(15 tokens, cost 1/400).  The last conjunct evaluates `execute_task` itself at
this input and shows the result carries `total_tokens = 0`, `total_cost = 0`. -/
theorem usage_delta_empty_baseline_bug :
    usage_delta true [] [⟨10, 5⟩] = (0, 0) ∧
    spec_usage_delta [⟨10, 5⟩] = (15, 1/400) ∧
    usage_delta true [] [⟨10, 5⟩] ≠ spec_usage_delta [⟨10, 5⟩] ∧
    execute_task envLoaded0 wRunC2 "t" none =
      .ok (success_data envLoaded0 "t" 3 "done" none 0 0) :=
  ⟨rfl,
   by
     have hcost : (0 : ℚ) + (10 : ℚ) * prompt_rate + (5 : ℚ) * completion_rate
         = 1 / 400 := by
       rw [prompt_rate, completion_rate]
       norm_num
     simp only [spec_usage_delta, List.foldl_cons, List.foldl_nil,
       Nat.cast_ofNat, Nat.zero_add]
     rw [Prod.mk.injEq]
     exact ⟨rfl, hcost⟩,
   fun h => absurd (congrArg Prod.fst h) (by decide),
   rfl⟩

/-- HTTP world where session creation answers HTTP 500 (submission and status
would succeed if they were ever reached). -/
def w500 : HttpWorld :=
  ⟨.ok (500, .obj []), .ok (200, .obj [("taskId", .s "t1")]),
   .ok (200, .obj [])⟩

/-- C3 counterexample: with session creation answering HTTP 500, the remote
path makes no task-submission call and does not retry — but it also surfaces
no result at all: nothing with `success:false` is printed, the block just
returns early. -/
theorem api_create_failure_no_result_surfaced :
    (api_mode_flow w500).execCalls = 0 ∧
    (api_mode_flow w500).createCalls = 1 ∧
    (api_mode_flow w500).printedResult = none ∧
    ¬ ∃ r, (api_mode_flow w500).printedResult = some r ∧
        jGet "success" r = some (.b false) := by
  refine ⟨rfl, rfl, rfl, ?_⟩
  rintro ⟨r, hr, _⟩
  have hnone : (api_mode_flow w500).printedResult = none := rfl
  rw [hnone] at hr
  exact Option.noConfusion hr

/-- C3 amended: on a session-creation POST that raises or returns a
non-success status, the remote path stops immediately — the submission POST
and the status GET are never issued and creation is not retried — but the
failure is surfaced only as an early return with no printed result object
(not as a `success:false` result). -/
theorem api_create_failure_stops (w : HttpWorld)
    (h : (∃ e, w.createResp = .error e) ∨
         (∃ s b, w.createResp = .ok (s, b) ∧ s ≠ 200)) :
    api_mode_flow w = ⟨1, 0, 0, none⟩ := by
  have hnone : create_session_via_api w = none := by
    rcases h with ⟨e, he⟩ | ⟨s, b, hok, hs⟩
    · simp [create_session_via_api, he]
    · simp [create_session_via_api, hok, hs]
  simp [api_mode_flow, hnone, pyTruthyJ]

/-- Witness for C3's amended theorem at the HTTP-500 world. -/
theorem api_create_failure_stops_witness :
    api_mode_flow w500 = ⟨1, 0, 0, none⟩ :=
  api_create_failure_stops w500 (Or.inr ⟨500, .obj [], rfl, by decide⟩)

/-- HTTP world where every endpoint succeeds and the submission response
carries a task id. -/
def wApiOk : HttpWorld :=
  ⟨.ok (200, .obj [("sessionId", .s "s1")]),
   .ok (200, .obj [("taskId", .s "t1")]),
   .ok (200, .obj [("status", .s "running")])⟩

/-- C4 counterexample: in a run whose task submission returns a task id, the
status endpoint is polled twice, not exactly once — the monitoring block of
`main` is duplicated verbatim. -/
theorem status_polled_twice_not_once :
    execute_task_via_api wApiOk = some (.obj [("taskId", .s "t1")]) ∧
    (api_mode_flow wApiOk).statusCalls = 2 ∧
    ¬ (api_mode_flow wApiOk).statusCalls = 1 := by
  refine ⟨rfl, rfl, ?_⟩
  intro hcontra
  have h2 : (api_mode_flow wApiOk).statusCalls = 2 := rfl
  rw [h2] at hcontra
  exact absurd hcontra (by decide)

/-- C4 amended: for every run whose submission succeeds with a truthy task
id, exactly two GETs of the task-status endpoint are performed (one per
duplicated monitoring block, each a single poll whose payload is only
logged), and the printed final result is the submission response, not the
poll payload. -/
theorem status_polled_exactly_twice (w : HttpWorld) (b : JVal)
    (hsid : pyTruthyJ (create_session_via_api w) = true)
    (hexec : execute_task_via_api w = some b)
    (hbody : pyTruthyJ (some b) = true)
    (htid : pyTruthyJ (jGet "taskId" b) = true) :
    (api_mode_flow w).statusCalls = 2 ∧
    (api_mode_flow w).printedResult = some b := by
  simp [api_mode_flow, hsid, hexec, hbody, htid]

/-- Witness for C4's amended theorem at the all-success HTTP world. -/
theorem status_polled_exactly_twice_witness :
    (api_mode_flow wApiOk).statusCalls = 2 ∧
    (api_mode_flow wApiOk).printedResult = some (.obj [("taskId", .s "t1")]) :=
  status_polled_exactly_twice wApiOk (.obj [("taskId", .s "t1")])
    rfl rfl rfl rfl

/-- Whether the preference tag's own credential set is complete. -/
def preferred_complete (a : LoadedEnv) : Bool :=
  if a.llm_provider == "azure" then azureAll a
  else if a.llm_provider == "openai" then pyTruthyOpt a.openai_api_key
  else if a.llm_provider == "google" then pyTruthyOpt a.google_api_key
  else false

/-- C5: `setup_llm` selects the preferred provider when its full credential
set is present; an unspecified preference defaults to the tag `azure`; when
the preference's credential set is incomplete it falls back to Azure whenever
Azure's set is complete; and when no provider's set is complete it raises,
which in local mode happens during agent construction — before any session or
agent work — and makes the process exit non-zero. -/
theorem setup_llm_resolution :
    (∀ a : LoadedEnv, a.llm_provider = "azure" → azureAll a = true →
      setup_llm a = .ok (.azureOpenAI a.azure_deployment
        (a.azure_api_key.getD "") (a.azure_endpoint.getD "")
        a.azure_deployment a.api_version)) ∧
    (∀ a : LoadedEnv, a.llm_provider = "openai" →
      pyTruthyOpt a.openai_api_key = true →
      setup_llm a = .ok (.openAI "gpt-4o" (a.openai_api_key.getD ""))) ∧
    (∀ a : LoadedEnv, a.llm_provider = "google" →
      pyTruthyOpt a.google_api_key = true →
      setup_llm a = .ok (.google "gemini-2.0-flash" (a.google_api_key.getD ""))) ∧
    (∀ (e : RawEnv) (a : LoadedEnv), e.LLM_PROVIDER = none →
      load_environment e = .ok a → a.llm_provider = "azure") ∧
    (∀ a : LoadedEnv, preferred_complete a = false → azureAll a = true →
      setup_llm a = .ok (.azureOpenAI a.azure_deployment
        (a.azure_api_key.getD "") (a.azure_endpoint.getD "")
        a.azure_deployment a.api_version)) ∧
    (∀ a : LoadedEnv, azureAll a = false →
      pyTruthyOpt a.openai_api_key = false →
      pyTruthyOpt a.google_api_key = false →
      setup_llm a = .error "No valid LLM configuration found. Please set up Azure OpenAI, OpenAI, or Google AI credentials.") ∧
    (∀ (env : RawEnv) (a : LoadedEnv) (w : ExecWorld) (task : String)
      (bcid : Option String) (dh : Bool),
      load_environment env = .ok a → azureAll a = false →
      pyTruthyOpt a.openai_api_key = false →
      pyTruthyOpt a.google_api_key = false →
      main_local env w task bcid dh = ⟨1, none, false⟩) := by
  have herr : ∀ a : LoadedEnv, azureAll a = false →
      pyTruthyOpt a.openai_api_key = false →
      pyTruthyOpt a.google_api_key = false →
      setup_llm a = .error "No valid LLM configuration found. Please set up Azure OpenAI, OpenAI, or Google AI credentials." := by
    intro a h1 h2 h3
    simp [setup_llm, h1, h2, h3]
  refine ⟨?_, ?_, ?_, ?_, ?_, herr, ?_⟩
  · intro a h1 h2
    simp [setup_llm, h1, h2]
  · intro a h1 h2
    simp [setup_llm, h1, h2,
      show (("openai" : String) == "azure") = false from by decide]
  · intro a h1 h2
    simp [setup_llm, h1, h2,
      show (("google" : String) == "azure") = false from by decide,
      show (("google" : String) == "openai") = false from by decide]
  · intro e a h1 h2
    cases hport : pyInt (e.BROWSER_PORT.getD "9222") with
    | none => rw [load_environment, hport] at h2; exact absurd h2 (by simp)
    | some port =>
      rw [load_environment, hport] at h2
      injection h2 with h3
      rw [← h3, h1]
      rfl
  · intro a hpre hca
    by_cases h1 : a.llm_provider = "azure"
    · rw [preferred_complete, if_pos (by simp [h1])] at hpre
      rw [hpre] at hca
      exact absurd hca (by decide)
    · by_cases h2 : a.llm_provider = "openai"
      · rw [preferred_complete, if_neg (by simp [h2]), if_pos (by simp [h2])] at hpre
        simp [setup_llm, h1, h2, hpre, hca]
      · by_cases h3 : a.llm_provider = "google"
        · rw [preferred_complete, if_neg (by simp [h3]),
            if_neg (by simp [h3]), if_pos (by simp [h3])] at hpre
          simp [setup_llm, h1, h2, h3, hpre, hca]
        · simp [setup_llm, h1, h2, h3, hca]
  · intro env a w task bcid dh hload h1 h2 h3
    have hsetup := herr a h1 h2 h3
    simp [main_local, initUA, hload, hsetup]

/-- Raw environment with no variables set at all. -/
def envEmptyRaw : RawEnv := ⟨none, none, none, none, none, none, none, none, none⟩

/-- What `load_environment` produces on the empty environment. -/
def loadedEmptyEnv : LoadedEnv :=
  ⟨none, none, "gpt-4.1", "2024-08-01-preview", none, none, "azure", true, 9222⟩

/-- A loaded environment preferring OpenAI with its key present. -/
def envLoadedOpenAI : LoadedEnv :=
  ⟨none, none, "gpt-4.1", "v1", some "sk", none, "openai", true, 9222⟩

/-- A loaded environment preferring OpenAI without its key but with complete
Azure credentials. -/
def envLoadedFallback : LoadedEnv :=
  ⟨some "k", some "ep", "gpt-4.1", "v1", none, none, "openai", true, 9222⟩

/-- Witness for C5: Azure preferred and complete; OpenAI preferred and
complete; incomplete preference falling back to Azure; and an empty
environment raising, with local-mode `main` exiting 1 before any task work. -/
theorem setup_llm_resolution_witness :
    setup_llm envLoaded0 = .ok (.azureOpenAI envLoaded0.azure_deployment
      (envLoaded0.azure_api_key.getD "") (envLoaded0.azure_endpoint.getD "")
      envLoaded0.azure_deployment envLoaded0.api_version) ∧
    setup_llm envLoadedOpenAI =
      .ok (.openAI "gpt-4o" (envLoadedOpenAI.openai_api_key.getD "")) ∧
    setup_llm envLoadedFallback = .ok (.azureOpenAI
      envLoadedFallback.azure_deployment (envLoadedFallback.azure_api_key.getD "")
      (envLoadedFallback.azure_endpoint.getD "")
      envLoadedFallback.azure_deployment envLoadedFallback.api_version) ∧
    setup_llm loadedEmptyEnv = .error "No valid LLM configuration found. Please set up Azure OpenAI, OpenAI, or Google AI credentials." ∧
    main_local envEmptyRaw wRunC2 "t" none false = ⟨1, none, false⟩ :=
  ⟨setup_llm_resolution.1 envLoaded0 rfl (by decide),
   setup_llm_resolution.2.1 envLoadedOpenAI rfl (by decide),
   setup_llm_resolution.2.2.2.2.1 envLoadedFallback (by decide) (by decide),
   setup_llm_resolution.2.2.2.2.2.1 loadedEmptyEnv (by decide) (by decide)
     (by decide),
   setup_llm_resolution.2.2.2.2.2.2 envEmptyRaw loadedEmptyEnv wRunC2 "t" none
     false rfl (by decide) (by decide) (by decide)⟩

/-- Any `execute_task` call returns a value (never re-raises). -/
lemma execute_task_isOk (a : LoadedEnv) (w : ExecWorld) (task : String)
    (bcid : Option String) : ∃ r, execute_task a w task bcid = .ok r := by
  cases hb : execute_task_body a w task bcid with
  | ok r => exact ⟨r, by simp [execute_task, hb]⟩
  | error e => exact ⟨error_data a task e bcid, by simp [execute_task, hb]⟩

/-- C6: `execute_task` never propagates an exception — it always returns a
result value; and when its body raises, the result is the `error_data`
dictionary with `success:false` and the exception message as the `error`
string. -/
theorem execute_task_never_raises (a : LoadedEnv) (w : ExecWorld)
    (task : String) (bcid : Option String) :
    (∃ r, execute_task a w task bcid = .ok r) ∧
    (∀ e, execute_task_body a w task bcid = .error e →
      execute_task a w task bcid = .ok (error_data a task e bcid) ∧
      jGet "success" (error_data a task e bcid) = some (.b false) ∧
      jGet "error" (error_data a task e bcid) = some (.s e)) := by
  refine ⟨execute_task_isOk a w task bcid, ?_⟩
  intro e he
  exact ⟨by simp [execute_task, he], rfl, rfl⟩

/-- Execution world whose agent run raises. -/
def wFailRun : ExecWorld := ⟨wNoFail, .error "boom", false, [], []⟩

/-- Witness for C6 at a world whose run raises `boom`. -/
theorem execute_task_never_raises_witness :
    (∃ r, execute_task envLoaded0 wFailRun "t" none = .ok r) ∧
    execute_task envLoaded0 wFailRun "t" none =
      .ok (error_data envLoaded0 "t" "boom" none) ∧
    jGet "success" (error_data envLoaded0 "t" "boom" none) = some (.b false) ∧
    jGet "error" (error_data envLoaded0 "t" "boom" none) = some (.s "boom") :=
  ⟨(execute_task_never_raises envLoaded0 wFailRun "t" none).1,
   (execute_task_never_raises envLoaded0 wFailRun "t" none).2 "boom" rfl⟩

/-- C7: every result of `execute_task` is a JSON object carrying a boolean
`success`; on success `final_result` is a string and `error` is absent; on
failure `error` is a string and `final_result` is absent. -/
theorem execute_task_result_shape (a : LoadedEnv) (w : ExecWorld)
    (task : String) (bcid : Option String) (r : JVal)
    (h : execute_task a w task bcid = .ok r) :
    (∃ fields, r = .obj fields) ∧
    ∃ sv, jGet "success" r = some (.b sv) ∧
      (sv = true → (∃ fr, jGet "final_result" r = some (.s fr)) ∧
        jGet "error" r = none) ∧
      (sv = false → (∃ msg, jGet "error" r = some (.s msg)) ∧
        jGet "final_result" r = none) := by
  cases hb : execute_task_body a w task bcid with
  | error e =>
    rw [execute_task, hb] at h
    injection h with h2
    subst h2
    refine ⟨⟨_, rfl⟩, false, rfl, ?_, ?_⟩
    · intro hcontra; exact absurd hcontra (by decide)
    · intro _; exact ⟨⟨e, rfl⟩, rfl⟩
  | ok r0 =>
    rw [execute_task, hb] at h
    injection h with h2
    subst h2
    rw [execute_task_body] at hb
    cases hc : (create_agent w.create bcid).2 with
    | error e => rw [hc] at hb; exact absurd hb (by simp)
    | ok s =>
      rw [hc] at hb
      cases hrun : w.run_result with
      | error e => rw [hrun] at hb; exact absurd hb (by simp)
      | ok out =>
        rw [hrun] at hb
        injection hb with h3
        subst h3
        refine ⟨⟨_, rfl⟩, true, rfl, ?_, ?_⟩
        · intro _; exact ⟨⟨out.rendered, rfl⟩, rfl⟩
        · intro hcontra; exact absurd hcontra (by decide)

/-- Execution world whose run succeeds. -/
def wRunOk : ExecWorld := ⟨wNoFail, .ok ⟨none, "done"⟩, false, [], []⟩

/-- Witness for C7 at a successful run. -/
theorem execute_task_result_shape_witness :
    (∃ fields, success_data envLoaded0 "t" 0 "done" none 0 0 = .obj fields) ∧
    ∃ sv, jGet "success" (success_data envLoaded0 "t" 0 "done" none 0 0)
        = some (.b sv) ∧
      (sv = true →
        (∃ fr, jGet "final_result" (success_data envLoaded0 "t" 0 "done" none 0 0)
          = some (.s fr)) ∧
        jGet "error" (success_data envLoaded0 "t" 0 "done" none 0 0) = none) ∧
      (sv = false →
        (∃ msg, jGet "error" (success_data envLoaded0 "t" 0 "done" none 0 0)
          = some (.s msg)) ∧
        jGet "final_result" (success_data envLoaded0 "t" 0 "done" none 0 0)
          = none) :=
  execute_task_result_shape envLoaded0 wRunOk "t" none
    (success_data envLoaded0 "t" 0 "done" none 0 0) rfl

/-- Raw environment with complete Azure credentials. -/
def envAzRaw : RawEnv :=
  ⟨some "k", some "ep", none, none, none, none, none, none, none⟩

/-- C8 counterexample: with valid credentials but a failing agent run, the
task fails (the printed result has `success:false`) yet the process exits 0 —
not 1 as claimed. -/
theorem failed_task_exits_zero :
    (main_local envAzRaw wFailRun "t" none false).exitCode = 0 ∧
    ∃ r, (main_local envAzRaw wFailRun "t" none false).printed = some r ∧
      jGet "success" r = some (.b false) :=
  ⟨rfl, ⟨_, rfl, rfl⟩⟩

/-- C8 amended: the process exits 0 whenever `main` returns normally — which
includes every run whose task fails with a `success:false` result, in either
mode — and exits 1 only when an exception escapes `main` (agent construction
failing, e.g. on missing credentials, or an error raised outside
`execute_task`'s handler). -/
theorem exit_code_behavior (env : RawEnv) (w : ExecWorld) (hw : HttpWorld)
    (task : String) (bcid : Option String) (dh : Bool) :
    ((initUA env false dh).isOk = true →
      (main_local env w task bcid dh).exitCode = 0) ∧
    ((initUA env false dh).isOk = false →
      (main_local env w task bcid dh).exitCode = 1) ∧
    ((initUA env true dh).isOk = true → (main_api env hw dh).exitCode = 0) ∧
    ((initUA env true dh).isOk = false → (main_api env hw dh).exitCode = 1) := by
  refine ⟨?_, ?_, ?_, ?_⟩
  · intro h
    cases hi : initUA env false dh with
    | error e => rw [hi] at h; simp [Except.isOk, Except.toBool] at h
    | ok st =>
      obtain ⟨r, hr⟩ := execute_task_isOk st.loaded w task bcid
      simp [main_local, hi, hr]
  · intro h
    cases hi : initUA env false dh with
    | error e => simp [main_local, hi]
    | ok st => rw [hi] at h; simp [Except.isOk, Except.toBool] at h
  · intro h
    cases hi : initUA env true dh with
    | error e => rw [hi] at h; simp [Except.isOk, Except.toBool] at h
    | ok st => simp [main_api, hi]
  · intro h
    cases hi : initUA env true dh with
    | error e => simp [main_api, hi]
    | ok st => rw [hi] at h; simp [Except.isOk, Except.toBool] at h

/-- Witness for C8's amended theorem: exit 0 with credentials present (even
though the run fails), exit 1 when construction raises for lack of
credentials. -/
theorem exit_code_behavior_witness :
    (main_local envAzRaw wFailRun "t" none false).exitCode = 0 ∧
    (main_local envEmptyRaw wFailRun "t" none false).exitCode = 1 ∧
    (main_api envAzRaw wApiOk false).exitCode = 0 :=
  ⟨(exit_code_behavior envAzRaw wFailRun wApiOk "t" none false).1 rfl,
   (exit_code_behavior envEmptyRaw wFailRun wApiOk "t" none false).2.1 rfl,
   (exit_code_behavior envAzRaw wFailRun wApiOk "t" none false).2.2.1 rfl⟩

/-- C9: in API mode the agent is constructed with `defer_llm=True`, so
credential resolution is never invoked (`setup_called` stays false, `llm`
stays `None`) and the run proceeds to the HTTP flow for every environment —
including one with no credentials at all — with exit code 0. -/
theorem api_mode_defers_llm (env : RawEnv) (w : HttpWorld) (dh : Bool)
    (a : LoadedEnv) (hload : load_environment env = .ok a) :
    initUA env true dh =
      .ok { loaded := a, llm := none, setup_called := false,
            disable_highlighting := dh } ∧
    main_api env w dh =
      { exitCode := 0, trace := api_mode_flow w, setup_called := false } := by
  have h1 : initUA env true dh =
      .ok { loaded := a, llm := none, setup_called := false,
            disable_highlighting := dh } := by
    simp [initUA, hload]
  exact ⟨h1, by simp [main_api, h1]⟩

/-- Witness for C9 at the credential-less environment: the API-mode run still
proceeds to the HTTP flow. -/
theorem api_mode_defers_llm_witness :
    initUA envEmptyRaw true false =
      .ok { loaded := loadedEmptyEnv, llm := none, setup_called := false,
            disable_highlighting := false } ∧
    main_api envEmptyRaw wApiOk false =
      { exitCode := 0, trace := api_mode_flow wApiOk, setup_called := false } :=
  api_mode_defers_llm envEmptyRaw wApiOk false loadedEmptyEnv rfl

/-- C10: when flag stripping and sanitization leave exactly one token and it
contains two consecutive spaces, `main` re-splits it on single spaces: the
task becomes the first word and the following words become `max_steps`
(`int()` raising on a non-integer), `session_id` and `browser_context_id`;
a single token without two consecutive spaces is used whole as the task. -/
theorem single_token_resplit (raw : List String) (t : String) (a d : Bool)
    (hne : raw ≠ [])
    (hclean : cleanTokens (raw.map sanitizeToken) = (a, d, [t])) :
    (containsSubstr t "  " = true →
      parseMain raw = parseArgsList a d (splitWords t) ∧
      ∀ w0 w1 rest, splitWords t = w0 :: w1 :: rest →
        (pyInt w1 = none → parseMain raw = .intErr w1) ∧
        (∀ n, pyInt w1 = some n →
          parseMain raw = .parsed w0 n rest.head? (rest.drop 1).head? a d)) ∧
    (containsSubstr t "  " = false →
      parseMain raw = .parsed t 10 none none a d) := by
  have hmain : parseMain raw =
      (if containsSubstr t "  " then parseArgsList a d (splitWords t)
       else parseArgsList a d [t]) := by
    unfold parseMain
    rw [if_neg hne, hclean]
    rfl
  constructor
  · intro hcs
    rw [hmain, if_pos hcs]
    refine ⟨rfl, ?_⟩
    intro w0 w1 rest hsw
    rw [hsw]
    constructor
    · intro hint2
      simp [parseArgsList, hint2]
    · intro n hint2
      simp [parseArgsList, hint2]
  · intro hcs
    rw [hmain, if_neg (by simp [hcs])]
    rfl

/-- Witness for C10: a double-space token is re-split (with both an integer
and a non-integer second word), a single-space token is used whole. -/
theorem single_token_resplit_witness :
    parseMain ["task  12 s c"]
      = .parsed "task" 12 (some "s") (some "c") false false ∧
    parseMain ["go x  12 s"] = .intErr "x" ∧
    parseMain ["hello world"] = .parsed "hello world" 10 none none false false := by
  refine ⟨?_, ?_, ?_⟩
  · have h := (single_token_resplit ["task  12 s c"] "task  12 s c" false false
      (by decide) (by decide)).1 (by decide)
    exact (h.2 "task" "12" ["s", "c"] (by decide)).2 12 (by decide)
  · have h := (single_token_resplit ["go x  12 s"] "go x  12 s" false false
      (by decide) (by decide)).1 (by decide)
    exact (h.2 "go" "x" ["12", "s"] (by decide)).1 (by decide)
  · exact (single_token_resplit ["hello world"] "hello world" false false
      (by decide) (by decide)).2 (by decide)
